import Mathlib

/-!
# Verification of the fogg-calendar-dashboard DNS modules

Shallow embedding of the DNS verification, management, monitoring and
performance-optimization modules of the repository, together with proofs
settling the frozen claims C1-C10.

Conventions used throughout:
* JavaScript objects become Lean structures; fields that carry only
  wall-clock bookkeeping (timestamps, measured durations) are omitted when
  no claim mentions them, and each omission is noted at its definition.
* JavaScript numbers are modelled as `Nat`/`Int` for counters and ids and
  as `Rat` where the source divides (all divisions in the source are exact
  or far from the float-rounding boundary, so `Rat` agrees with IEEE-754
  doubles on every reachable input).
* Network and filesystem effects are modelled by a deterministic world
  record giving the outcome of each external call; `Except String`
  models a JavaScript exception propagating, and a JS `try/catch` becomes
  a `match` on the `Except` value.
-/

namespace DNSVerifier

/-! ## dns-verifier.js: data model of one comprehensive check

`performComprehensiveCheck` builds an object with per-dimension results;
only the fields consumed by `calculateOverallSuccess`,
`generateRecommendations` and `generateNextSteps` are modelled
(addresses, response times and header dumps are not read by those). -/

/-- Result of `checkLocalDNS` (field `local`): `success` is set when the
local resolver returned the expected CNAME target. The JS field is named
`local`, a Lean keyword, hence `localDNS` here. -/
structure LocalCheck where
  success : Bool
deriving DecidableEq

/-- Result of `checkDNSServers` (field `servers`): one success flag per
polled resolver (the source stores full per-server records and derives
`successCount`/`totalCount` from them; only the flags are needed). -/
structure ServersCheck where
  checks : List Bool
deriving DecidableEq

/-- `results.filter(r => r.success).length` in `checkDNSServers`. -/
def ServersCheck.successCount (s : ServersCheck) : Nat :=
  (s.checks.filter id).length

/-- `results.length` in `checkDNSServers`. -/
def ServersCheck.totalCount (s : ServersCheck) : Nat :=
  s.checks.length

/-- Result of `checkOnlineServices` (field `online`): one success flag per
online checker service. -/
structure OnlineCheck where
  checks : List Bool
deriving DecidableEq

/-- `results.filter(r => r.success).length` in `checkOnlineServices`. -/
def OnlineCheck.successCount (o : OnlineCheck) : Nat :=
  (o.checks.filter id).length

/-- `results.length` in `checkOnlineServices`. -/
def OnlineCheck.totalCount (o : OnlineCheck) : Nat :=
  o.checks.length

/-- Result of `checkHTTPAccess` (field `http`). -/
structure HttpCheck where
  success : Bool
deriving DecidableEq

/-- Result of `checkSSLCertificate` (field `ssl`). -/
structure SslCheck where
  success : Bool
deriving DecidableEq

/-- One comprehensive check, as assembled by `performComprehensiveCheck`
(the `timestamp`, `performance` and computed `overall` fields are omitted:
the first two are wall-clock data, and `overall` is recomputed by
`calculateOverallSuccess` below wherever the source reads it). -/
structure Check where
  localDNS : LocalCheck
  servers : ServersCheck
  online : OnlineCheck
  http : HttpCheck
  ssl : SslCheck
deriving DecidableEq

/-- The object returned by `calculateOverallSuccess`. -/
structure Overall where
  success : Bool
  score : Nat
  totalChecks : Nat
  percentage : Int
deriving DecidableEq

/-- `DNSVerifier.calculateOverallSuccess` (dns-verifier.js:385-404).
`(successCount / totalCount) >= 0.5` is a JS float test; with
`totalCount = 0` JS yields `NaN >= 0.5 = false`, and `0 / 0 = 0 ≥ 1/2`
is also false in `Rat` (note `successCount ≤ totalCount` always holds by
construction of `ServersCheck`), so the `Rat` reading agrees with the
source on every input. -/
def calculateOverallSuccess (c : Check) : Overall :=
  let checksLocal : Bool := c.localDNS.success
  let checksServers : Bool :=
    decide ((c.servers.successCount : ℚ) / (c.servers.totalCount : ℚ) ≥ 1/2)
  let checksOnline : Bool := decide (c.online.successCount > 0)
  let checksHttp : Bool := c.http.success
  let checksSsl : Bool := c.ssl.success
  let values : List Bool := [checksLocal, checksServers, checksOnline, checksHttp, checksSsl]
  let successCount : Nat := (values.filter id).length
  let totalChecks : Nat := values.length
  { success := decide (successCount ≥ 3)
    score := successCount
    totalChecks := totalChecks
    percentage := round (((successCount : ℚ) / (totalChecks : ℚ)) * 100) }

end DNSVerifier

namespace DNSMonitor

/-! ## dns-monitor.js: per-check results and overall health -/

/-- Result of `checkDNSResolution` (only `success` is read by
`calculateOverallHealth` and `handleStatusChange`). -/
structure DnsCheck where
  success : Bool
deriving DecidableEq

/-- Result of `checkHTTPAccess` in dns-monitor.js. -/
structure HttpCheck where
  success : Bool
deriving DecidableEq

/-- Result of `checkSSLCertificate` in dns-monitor.js. -/
structure SslCheck where
  success : Bool
deriving DecidableEq

/-- Result of `checkDNSPropagation`: `success` is
`propagationPercentage >= 50`. -/
structure PropagationCheck where
  success : Bool
deriving DecidableEq

/-- One health-check result, as assembled by `performHealthCheck`
(`id`, `timestamp` and the computed `overall` field are omitted: the
first two are wall-clock bookkeeping and `overall` is recomputed by
`calculateOverallHealth` wherever the source reads it). -/
structure HealthResults where
  dns : DnsCheck
  http : HttpCheck
  ssl : SslCheck
  propagation : PropagationCheck
deriving DecidableEq

/-- The object returned by `calculateOverallHealth` (the `issues` field,
produced by `identifyIssues`, only reformats the inputs for display and
is consumed by no claim; it is omitted). -/
structure OverallHealth where
  healthy : Bool
  score : Nat
  maxScore : Nat
  percentage : Int
deriving DecidableEq

/-- `DNSMonitor.calculateOverallHealth` (dns-monitor.js:359-377).
`totalScore >= maxScore * 0.75` with `maxScore = 4`; `0.75` is exactly
representable as a double, so the `Rat` literal `3/4` is faithful. -/
def calculateOverallHealth (r : HealthResults) : OverallHealth :=
  let scores : List Nat :=
    [if r.dns.success then 1 else 0,
     if r.http.success then 1 else 0,
     if r.ssl.success then 1 else 0,
     if r.propagation.success then 1 else 0]
  let totalScore : Nat := scores.foldl (· + ·) 0
  let maxScore : Nat := scores.length
  { healthy := decide ((totalScore : ℚ) ≥ (maxScore : ℚ) * (3/4))
    score := totalScore
    maxScore := maxScore
    percentage := round (((totalScore : ℚ) / (maxScore : ℚ)) * 100) }

end DNSMonitor

/-! ## Shared helper lemmas -/

/-- Counting `true` in a boolean list is the length of its `filter id`. -/
theorem count_true_eq_filter_length (l : List Bool) :
    l.count true = (l.filter id).length := by
  induction l with
  | nil => rfl
  | cons b t ih =>
    cases b <;> simp [List.count_cons, List.filter_cons, ih]

/-! ## Claim C1 -/

/-- C1: for every comprehensive check (the verifier polls a fixed list of
8 DNS resolvers, so `servers.totalCount = 8`), `calculateOverallSuccess`
reports `success = true` iff at least 3 of the 5 dimensions hold, the
DNS-server dimension holding exactly when at least 50% of the polled
resolvers returned the target (`2 * successCount ≥ totalCount`) and the
online-services dimension holding exactly when at least one online
service succeeded. -/
theorem c1_overall_success_quorum (c : DNSVerifier.Check)
    (h8 : c.servers.totalCount = 8) :
    (DNSVerifier.calculateOverallSuccess c).success = true ↔
      3 ≤ ([c.localDNS.success,
            decide (2 * c.servers.successCount ≥ c.servers.totalCount),
            decide (1 ≤ c.online.successCount),
            c.http.success,
            c.ssl.success].count true) := by
  have hdim : ((c.servers.successCount : ℚ) / (c.servers.totalCount : ℚ) ≥ 1/2)
      ↔ (2 * c.servers.successCount ≥ c.servers.totalCount) := by
    rw [h8]
    rw [ge_iff_le, le_div_iff₀ (by norm_num : (0:ℚ) < ((8:ℕ):ℚ))]
    push_cast
    constructor
    · intro h
      have h4 : 4 ≤ c.servers.successCount := by exact_mod_cast (by linarith : (4:ℚ) ≤ (c.servers.successCount : ℚ))
      omega
    · intro h
      have h4 : (4:ℚ) ≤ (c.servers.successCount : ℚ) := by
        exact_mod_cast (by omega : 4 ≤ c.servers.successCount)
      linarith
  have hb2 : (decide ((c.servers.successCount : ℚ) / (c.servers.totalCount : ℚ) ≥ 1/2))
      = decide (2 * c.servers.successCount ≥ c.servers.totalCount) :=
    decide_eq_decide.mpr hdim
  have hb3 : (decide (c.online.successCount > 0)) = decide (1 ≤ c.online.successCount) :=
    decide_eq_decide.mpr (by omega)
  simp only [DNSVerifier.calculateOverallSuccess, hb2, hb3,
    count_true_eq_filter_length, decide_eq_true_eq]

/-- Witness for C1 at a concrete comprehensive check with exactly 8 polled
resolvers, 4 of which returned the target. -/
theorem c1_overall_success_quorum_witness :
    (DNSVerifier.Check.servers
        ⟨⟨true⟩, ⟨[true, true, true, true, false, false, false, false]⟩,
         ⟨[true, false]⟩, ⟨false⟩, ⟨false⟩⟩).totalCount = 8 ∧
    ((DNSVerifier.calculateOverallSuccess
        ⟨⟨true⟩, ⟨[true, true, true, true, false, false, false, false]⟩,
         ⟨[true, false]⟩, ⟨false⟩, ⟨false⟩⟩).success = true ↔
      3 ≤ ([true,
            decide (2 * (DNSVerifier.ServersCheck.successCount
                ⟨[true, true, true, true, false, false, false, false]⟩) ≥
              (DNSVerifier.ServersCheck.totalCount
                ⟨[true, true, true, true, false, false, false, false]⟩)),
            decide (1 ≤ (DNSVerifier.OnlineCheck.successCount ⟨[true, false]⟩)),
            false,
            false].count true)) :=
  ⟨by decide, c1_overall_success_quorum _ (by decide)⟩

/-! ## Claim C10 -/

/-- C10: `calculateOverallHealth` reports `healthy = true` iff at least 3
of its 4 dimensions (DNS resolution, HTTP access, SSL certificate, DNS
propagation) succeed, and the reported percentage always equals
`round(score / 4 * 100)`. -/
theorem c10_overall_health_three_of_four (r : DNSMonitor.HealthResults) :
    ((DNSMonitor.calculateOverallHealth r).healthy = true ↔
      3 ≤ ([r.dns.success, r.http.success, r.ssl.success,
            r.propagation.success].count true)) ∧
    (DNSMonitor.calculateOverallHealth r).percentage =
      round (((DNSMonitor.calculateOverallHealth r).score : ℚ) / 4 * 100) := by
  obtain ⟨⟨d⟩, ⟨h⟩, ⟨s⟩, ⟨p⟩⟩ := r
  cases d <;> cases h <;> cases s <;> cases p <;>
    refine ⟨by norm_num [DNSMonitor.calculateOverallHealth], ?_⟩ <;>
    norm_num [DNSMonitor.calculateOverallHealth]

/-- Witness for C10 at a concrete health-check result (3 of 4 dimensions
passing). -/
theorem c10_overall_health_three_of_four_witness :
    ((DNSMonitor.calculateOverallHealth ⟨⟨true⟩, ⟨true⟩, ⟨false⟩, ⟨true⟩⟩).healthy = true ↔
      3 ≤ ([true, true, false, true].count true)) ∧
    (DNSMonitor.calculateOverallHealth ⟨⟨true⟩, ⟨true⟩, ⟨false⟩, ⟨true⟩⟩).percentage =
      round (((DNSMonitor.calculateOverallHealth ⟨⟨true⟩, ⟨true⟩, ⟨false⟩, ⟨true⟩⟩).score : ℚ) / 4 * 100) :=
  c10_overall_health_three_of_four _

namespace DNSMonitor

/-! ## dns-monitor.js / dns-management-system.js: bounded check history -/

/-- `DNSMonitor.keepRecentChecks` (dns-monitor.js:559-563): when the
history exceeds 100 entries, keep the last 100 (`this.checks.slice(-100)`).
The entry type is a parameter: the pruning never inspects entries. -/
def keepRecentChecks {α : Type} (checks : List α) : List α :=
  if 100 < checks.length then checks.drop (checks.length - 100) else checks

/-- One history update of `performHealthCheck` (dns-monitor.js:130-132):
`this.checks.push(results)` followed by `keepRecentChecks`. -/
def pushCheck {α : Type} (checks : List α) (c : α) : List α :=
  keepRecentChecks (checks ++ [c])

/-- `DNSMonitoring.logCheck` (dns-management-system.js:596-610): push the
new check, then keep only the last 100 entries when the length exceeds
100 (`this.checks = this.checks.slice(-100)`). -/
def logCheck {α : Type} (checks : List α) (c : α) : List α :=
  let pushed := checks ++ [c]
  if 100 < pushed.length then pushed.drop (pushed.length - 100) else pushed

end DNSMonitor

/-! ## Claim C8 -/

/-- C8: within one run the health-check history is append-only except for
pruning of the oldest entries — each update yields a suffix of the old
history with the new entry appended, obtained by dropping exactly the
oldest overflow entries — the most recent entry is always retained, and
if the history was within the 100-entry bound before a check it is within
the bound after it.  The monitor's `pushCheck` and the management
system's `logCheck` agree. -/
theorem c8_history_bounded_append_only {α : Type} (checks : List α) (c : α)
    (hlen : checks.length ≤ 100) :
    DNSMonitor.pushCheck checks c =
        (checks ++ [c]).drop (checks.length + 1 - 100) ∧
    DNSMonitor.pushCheck checks c <:+ (checks ++ [c]) ∧
    (DNSMonitor.pushCheck checks c).length ≤ 100 ∧
    (DNSMonitor.pushCheck checks c).getLast? = some c ∧
    DNSMonitor.logCheck checks c = DNSMonitor.pushCheck checks c := by
  have hlen1 : (checks ++ [c]).length = checks.length + 1 := by
    simp
  have heq : DNSMonitor.pushCheck checks c =
      (checks ++ [c]).drop (checks.length + 1 - 100) := by
    unfold DNSMonitor.pushCheck DNSMonitor.keepRecentChecks
    rw [hlen1]
    by_cases h : 100 < checks.length + 1
    · simp [h]
    · have h0 : checks.length + 1 - 100 = 0 := by omega
      simp [h, h0]
  refine ⟨heq, ?_, ?_, ?_, ?_⟩
  · rw [heq]; exact List.drop_suffix _ _
  · rw [heq, List.length_drop, hlen1]; omega
  · rw [heq, List.drop_append_of_le_length (by omega : checks.length + 1 - 100 ≤ checks.length)]
    exact List.getLast?_concat _
  · unfold DNSMonitor.logCheck DNSMonitor.pushCheck DNSMonitor.keepRecentChecks
    rfl

/-- Witness for C8 at a concrete two-entry history. -/
theorem c8_history_bounded_append_only_witness :
    DNSMonitor.pushCheck [0, 1] 2 = ([0, 1] ++ [2]).drop ([0, 1].length + 1 - 100) ∧
    DNSMonitor.pushCheck [0, 1] 2 <:+ ([0, 1] ++ [2]) ∧
    (DNSMonitor.pushCheck [0, 1] 2).length ≤ 100 ∧
    (DNSMonitor.pushCheck [0, 1] 2).getLast? = some 2 ∧
    DNSMonitor.logCheck [0, 1] 2 = DNSMonitor.pushCheck [0, 1] 2 :=
  c8_history_bounded_append_only [0, 1] 2 (by decide)

namespace DNSMonitor

/-! ## dns-monitor.js: status-change handling -/

/-- The monitor state read and written by `handleStatusChange`:
`consecutiveFailures` and `lastStatus` (of which only
`overall.healthy` is read, via `this.lastStatus?.overall.healthy`;
`none` models the initial `lastStatus = null`). -/
structure MonitorState where
  consecutiveFailures : Nat
  lastHealthy : Option Bool
deriving DecidableEq

/-- The alerts sent by `handleStatusChange` through `sendAlert`:
`recovery` and `failureAlert` carry the `consecutiveFailures` counter
interpolated into their message, `statusChange` the new status. -/
inductive AlertEvent where
  | recovery (failures : Nat)
  | failureAlert (failures : Nat)
  | statusChange (toHealthy : Bool)
deriving DecidableEq

/-- `DNSMonitor.handleStatusChange` (dns-monitor.js:429-466) for one
check result: returns the updated state and the alerts sent, in order of
emission (recovery/failure alert first, then the status-change alert). -/
def handleStatusChange (alertThreshold : Nat) (s : MonitorState)
    (isHealthy : Bool) : MonitorState × List AlertEvent :=
  let wasHealthy := s.lastHealthy.getD false
  let cf : Nat := if isHealthy then 0 else s.consecutiveFailures + 1
  let alerts : List AlertEvent :=
    if isHealthy then
      if 0 < s.consecutiveFailures then [AlertEvent.recovery s.consecutiveFailures] else []
    else
      if alertThreshold ≤ s.consecutiveFailures + 1 then
        [AlertEvent.failureAlert (s.consecutiveFailures + 1)]
      else []
  let changeAlerts : List AlertEvent :=
    if wasHealthy ≠ isHealthy then [AlertEvent.statusChange isHealthy] else []
  ({ consecutiveFailures := cf, lastHealthy := some isHealthy }, alerts ++ changeAlerts)

/-- Folding `handleStatusChange` over a sequence of per-check overall
health flags, collecting all alerts in order. -/
def runMonitor (alertThreshold : Nat) : MonitorState → List Bool →
    MonitorState × List AlertEvent
  | s, [] => (s, [])
  | s, h :: t =>
    let step := handleStatusChange alertThreshold s h
    let rest := runMonitor alertThreshold step.1 t
    (rest.1, step.2 ++ rest.2)

/-- The state at monitor start: `consecutiveFailures = 0`,
`lastStatus = null`. -/
def initialMonitorState : MonitorState := ⟨0, none⟩

/-- Selects the `status_change` alerts. -/
def isStatusChange : AlertEvent → Bool
  | .statusChange _ => true
  | _ => false

/-- Number of health transitions in a sequence of per-check health flags,
relative to the previous flag (the monitor reads the virtual initial
status as unhealthy: `this.lastStatus?.overall.healthy || false`). -/
def healthTransitions (prev : Bool) : List Bool → Nat
  | [] => 0
  | h :: t => (if h = prev then 0 else 1) + healthTransitions h t

end DNSMonitor

/-! ## Claim C7 -/

/-- C7 counterexample: with the default failure threshold 3, the run whose
per-check health flags are `[true, false, false, false, false]` emits the
healthy-to-unhealthy transition alert (`statusChange false`) right at the
first failed check — after 1 consecutive failure, below the threshold 3 —
and, once the threshold is reached, re-emits the threshold-gated failure
alert on every further failing check (`failureAlert 3` and
`failureAlert 4`) while the state stays unhealthy.  This refutes the
claim that a transition event is emitted only after the failure threshold
of consecutive failed checks and exactly once per transition. -/
theorem c7_counterexample :
    (DNSMonitor.runMonitor 3 DNSMonitor.initialMonitorState
        [true, false, false, false, false]).2 =
      [DNSMonitor.AlertEvent.statusChange true,
       DNSMonitor.AlertEvent.statusChange false,
       DNSMonitor.AlertEvent.failureAlert 3,
       DNSMonitor.AlertEvent.failureAlert 4] := by
  decide

/-- After one `handleStatusChange` step, `lastStatus` records the new
health flag. -/
theorem handleStatusChange_lastHealthy (alertThreshold : Nat)
    (s : DNSMonitor.MonitorState) (h : Bool) :
    (DNSMonitor.handleStatusChange alertThreshold s h).1.lastHealthy = some h := by
  cases h <;> simp [DNSMonitor.handleStatusChange]

/-- One `handleStatusChange` step emits a `status_change` alert exactly
when the new health flag differs from the previous one. -/
theorem handleStatusChange_statusChange_count (alertThreshold : Nat)
    (s : DNSMonitor.MonitorState) (h : Bool) :
    ((DNSMonitor.handleStatusChange alertThreshold s h).2.countP
        (fun e => DNSMonitor.isStatusChange e)) =
      (if h = s.lastHealthy.getD false then 0 else 1) := by
  cases h <;> cases hw : s.lastHealthy.getD false <;>
    simp [DNSMonitor.handleStatusChange, hw, DNSMonitor.isStatusChange,
      List.countP_append]

/-- Generalized form of the amended C7 over an arbitrary starting state. -/
theorem runMonitor_statusChange_count (alertThreshold : Nat) (hs : List Bool) :
    ∀ s : DNSMonitor.MonitorState,
      ((DNSMonitor.runMonitor alertThreshold s hs).2.countP
          (fun e => DNSMonitor.isStatusChange e)) =
        DNSMonitor.healthTransitions (s.lastHealthy.getD false) hs := by
  induction hs with
  | nil => intro s; simp [DNSMonitor.runMonitor, DNSMonitor.healthTransitions]
  | cons h t ih =>
    intro s
    simp only [DNSMonitor.runMonitor, DNSMonitor.healthTransitions,
      List.countP_append]
    rw [handleStatusChange_statusChange_count, ih,
      handleStatusChange_lastHealthy]
    simp [Option.getD]

/-- C7 amended: the monitor's `status_change` alert is emitted exactly
once per flip of the overall health flag — on the first check whose
health differs from the previous check's (with the virtual initial
status unhealthy) — regardless of the failure threshold; so there are no
duplicate `status_change` events while the state stays the same.  The
failure threshold gates only the separate failure alert, which repeats
on every further consecutive failure, and the recovery alert. -/
theorem c7_status_change_once_per_transition (alertThreshold : Nat)
    (hs : List Bool) :
    ((DNSMonitor.runMonitor alertThreshold DNSMonitor.initialMonitorState
        hs).2.countP (fun e => DNSMonitor.isStatusChange e)) =
      DNSMonitor.healthTransitions false hs :=
  runMonitor_statusChange_count alertThreshold hs DNSMonitor.initialMonitorState

namespace ZoneModel

/-! ## Record create/update against an abstract DNS zone

The provider clients talk to remote zone APIs; the zone is modelled as a
record list and the two API endpoints the clients call are `apiCreate`
(append a fresh-id record — neither the Porkbun
`POST /dns/create/{domain}` endpoint nor the Cloudflare
`POST .../dns_records` endpoint deduplicates by name) and `apiUpdate`
(`PUT` by record id, rewriting type/content/ttl in place). -/

/-- One DNS record as stored in a zone (`type` is a Lean keyword, hence
`rtype`). -/
structure DnsRecord where
  id : Nat
  name : String
  rtype : String
  content : String
  ttl : Nat
deriving DecidableEq

/-- The `{domain, subdomain, target, ttl}` argument object of
`createRecord`. -/
structure RecordArgs where
  domain : String
  subdomain : String
  target : String
  ttl : Nat
deriving DecidableEq

/-- Server side of record creation: append a record under a fresh id and
report that id. -/
def apiCreate (z : List DnsRecord) (name rtype content : String)
    (ttl : Nat) : List DnsRecord × Nat :=
  let i := (z.map (fun r => r.id)).foldr max 0 + 1
  (z ++ [{ id := i, name := name, rtype := rtype, content := content, ttl := ttl }], i)

/-- Server side of record update (`PUT .../dns_records/{recordId}`):
rewrite type/content/ttl of the record with the given id, in place. -/
def apiUpdate (z : List DnsRecord) (rid : Nat) (rtype content : String)
    (ttl : Nat) : List DnsRecord :=
  z.map fun r =>
    if r.id = rid then
      { id := r.id, name := r.name, rtype := rtype, content := content, ttl := ttl }
    else r

/-- `CloudflareProvider.findExistingRecord`
(cloudflare-provider.js:89-106): query the zone for records with the
given name and type CNAME and take the first hit (`result[0]`). -/
def findExistingRecord (z : List DnsRecord) (subdomain : String) :
    Option DnsRecord :=
  (z.filter fun r => r.name == subdomain && r.rtype == "CNAME").head?

/-- `CloudflareProvider.createRecord` (cloudflare-provider.js:43-65)
acting on the abstract zone: update in place when a CNAME record for
`subdomain` already exists, otherwise create a new one.  Returns the new
zone and the reported record id. -/
def cloudflareCreateRecord (z : List DnsRecord) (a : RecordArgs) :
    List DnsRecord × Nat :=
  match findExistingRecord z a.subdomain with
  | some r => (apiUpdate z r.id "CNAME" a.target a.ttl, r.id)
  | none => apiCreate z a.subdomain "CNAME" a.target a.ttl

/-- `PorkbunProvider.createRecord` (dns-management-system.js:400-427)
acting on the abstract zone: it always issues `POST /dns/create/{domain}`
with the CNAME payload — there is no lookup for an existing record and no
update path. -/
def porkbunCreateRecord (z : List DnsRecord) (a : RecordArgs) :
    List DnsRecord × Nat :=
  apiCreate z a.subdomain "CNAME" a.target a.ttl

end ZoneModel

/-! ## Claim C3 -/

/-- C3 counterexample: the zone already holds a CNAME record for `fogg`
(and `findExistingRecord` sees it), yet the Porkbun provider's
record-creation operation leaves the zone with two CNAME records for
`fogg` — it creates a second record instead of updating in place, so the
operation is not idempotent for every provider. -/
theorem c3_counterexample :
    (ZoneModel.findExistingRecord
        [⟨1, "fogg", "CNAME", "old.example.net", 300⟩] "fogg" =
      some ⟨1, "fogg", "CNAME", "old.example.net", 300⟩) ∧
    ((ZoneModel.porkbunCreateRecord
        [⟨1, "fogg", "CNAME", "old.example.net", 300⟩]
        ⟨"candlefish.ai", "fogg", "fogg-calendar.netlify.app", 300⟩).1.filter
      (fun r => r.name == "fogg" && r.rtype == "CNAME")).length = 2 := by
  decide

/-- C3 amended: the record-creation operation is idempotent for the
Cloudflare provider (and the Netlify provider follows the same
find-then-update-else-create shape), but not for the Porkbun provider,
which always creates.  For Cloudflare: if a CNAME record for `subdomain`
already exists, the record is updated in place — the zone keeps exactly
the same record ids (so no second record is created) and the reported
record id is the existing record's id; otherwise exactly one new record
is appended. -/
theorem c3_cloudflare_create_or_update_idempotent
    (z : List ZoneModel.DnsRecord) (a : ZoneModel.RecordArgs) :
    (∀ r, ZoneModel.findExistingRecord z a.subdomain = some r →
      ((ZoneModel.cloudflareCreateRecord z a).1.map (fun q => q.id) =
          z.map (fun q => q.id) ∧
        (ZoneModel.cloudflareCreateRecord z a).2 = r.id ∧
        (ZoneModel.cloudflareCreateRecord z a).1.length = z.length)) ∧
    (ZoneModel.findExistingRecord z a.subdomain = none →
      ((ZoneModel.cloudflareCreateRecord z a).1.length = z.length + 1 ∧
        (ZoneModel.cloudflareCreateRecord z a).1.take z.length = z)) := by
  constructor
  · intro r hr
    unfold ZoneModel.cloudflareCreateRecord
    rw [hr]
    refine ⟨?_, rfl, by simp [ZoneModel.apiUpdate]⟩
    simp only [ZoneModel.apiUpdate, List.map_map]
    apply List.map_congr_left
    intro q _
    by_cases hq : q.id = r.id <;> simp [hq]
  · intro hr
    unfold ZoneModel.cloudflareCreateRecord
    rw [hr]
    constructor
    · simp [ZoneModel.apiCreate]
    · simp [ZoneModel.apiCreate, List.take_left]

/-- Witness for C3's amended theorem: in a zone holding a CNAME record
for `fogg` under id 1, the Cloudflare provider updates in place, keeping
record id 1 and zone length 1. -/
theorem c3_cloudflare_create_or_update_idempotent_witness :
    ((ZoneModel.cloudflareCreateRecord
        [⟨1, "fogg", "CNAME", "old.example.net", 300⟩]
        ⟨"candlefish.ai", "fogg", "fogg-calendar.netlify.app", 300⟩).1.map
        (fun q => q.id) =
      ([⟨1, "fogg", "CNAME", "old.example.net", 300⟩] :
          List ZoneModel.DnsRecord).map (fun q => q.id)) ∧
    (ZoneModel.cloudflareCreateRecord
        [⟨1, "fogg", "CNAME", "old.example.net", 300⟩]
        ⟨"candlefish.ai", "fogg", "fogg-calendar.netlify.app", 300⟩).2 =
      (⟨1, "fogg", "CNAME", "old.example.net", 300⟩ : ZoneModel.DnsRecord).id ∧
    (ZoneModel.cloudflareCreateRecord
        [⟨1, "fogg", "CNAME", "old.example.net", 300⟩]
        ⟨"candlefish.ai", "fogg", "fogg-calendar.netlify.app", 300⟩).1.length =
      ([⟨1, "fogg", "CNAME", "old.example.net", 300⟩] :
          List ZoneModel.DnsRecord).length :=
  (c3_cloudflare_create_or_update_idempotent _ _).1 _ (by decide)

namespace DNSManager

/-! ## dns-management-system.js and dns-providers/cloudflare-provider.js

The external effects (environment, credential files, provider APIs, the
local filesystem, DNS propagation) are modelled by one deterministic
`World`; `Except String` marks the operations whose JS counterparts can
throw. -/

/-- Porkbun credentials: a complete set is an api key plus a secret key
(`loadFromEnvironment` requires both `PORKBUN_API_KEY` and
`PORKBUN_SECRET_KEY`). -/
structure PorkbunCreds where
  apiKey : String
  secretKey : String
deriving DecidableEq

/-- Cloudflare credentials: a bearer token (`CLOUDFLARE_API_TOKEN`). -/
structure CloudflareCreds where
  apiToken : String
deriving DecidableEq

/-- Body of a Porkbun `POST /ping` response:
`statusSuccess` is `response.data.status === 'SUCCESS'`, `message` is
`response.data.message`. -/
structure PingResp where
  statusSuccess : Bool
  message : Option String
deriving DecidableEq

/-- Body of a Porkbun `POST /dns/create/{domain}` response. -/
structure CreateResp where
  statusSuccess : Bool
  id : Option Nat
  message : Option String
deriving DecidableEq

/-- Body of a Cloudflare `GET /user/tokens/verify` response:
`success` is `response.data.success`, `firstErrorMessage` is
`response.data.errors?.[0]?.message`. -/
structure VerifyResp where
  success : Bool
  firstErrorMessage : Option String
deriving DecidableEq

/-- Deterministic model of everything outside the process: `none` on an
HTTP-call field means that call throws (network error or timeout), and
the accompanying `...Err` field is the thrown error's message. -/
structure World where
  porkbunEnvCreds : Option PorkbunCreds
  porkbunFileCreds : Option PorkbunCreds
  porkbunPing : Option PingResp
  porkbunPingErr : String
  porkbunCreate : Option CreateResp
  porkbunCreateErr : String
  cloudflareEnvToken : Option String
  cloudflareFileCreds : Option CloudflareCreds
  cloudflareVerify : Option VerifyResp
  cloudflareVerifyErr : String
  fsRedirectWriteOk : Bool
  fsInstructionsWriteOk : Bool
  dnsPropagates : Bool
  httpStatusLt400 : Bool

/-- `PorkbunProvider.loadFromEnvironment`: yields only when both
environment variables are present. -/
def porkbunLoadFromEnvironment (w : World) : Option PorkbunCreds :=
  w.porkbunEnvCreds

/-- `PorkbunProvider.loadFromAWSSecrets` is a stub: it always returns
null. -/
def porkbunLoadFromAWSSecrets (_w : World) : Option PorkbunCreds :=
  none

/-- `PorkbunProvider.loadFromFile`: `config/porkbun-creds.json`, `none`
when missing or unparsable. -/
def porkbunLoadFromFile (w : World) : Option PorkbunCreds :=
  w.porkbunFileCreds

/-- `PorkbunProvider.loadCredentials` (dns-management-system.js:429-447):
sources tried in the source's order environment → AWS Secrets Manager →
file; the first non-null result wins; throws when none yields. -/
def porkbunLoadCredentials (w : World) : Except String PorkbunCreds :=
  match porkbunLoadFromEnvironment w with
  | some c => .ok c
  | none =>
    match porkbunLoadFromAWSSecrets w with
    | some c => .ok c
    | none =>
      match porkbunLoadFromFile w with
      | some c => .ok c
      | none => .error "No valid Porkbun credentials found"

/-- The credentials cached on the Porkbun provider instance after
`loadCredentials` was attempted (`this.credentials`, null when it
threw). -/
def porkbunCredsOpt (w : World) : Option PorkbunCreds :=
  (porkbunLoadCredentials w).toOption

/-- `CloudflareProvider.loadFromEnvironment`
(cloudflare-provider.js:167-174). -/
def cloudflareLoadFromEnvironment (w : World) : Option CloudflareCreds :=
  w.cloudflareEnvToken.map (fun t => { apiToken := t })

/-- `CloudflareProvider.loadFromFile`: `config/cloudflare-creds.json`. -/
def cloudflareLoadFromFile (w : World) : Option CloudflareCreds :=
  w.cloudflareFileCreds

/-- `CloudflareProvider.loadFromAWSSecrets` is a stub: always null. -/
def cloudflareLoadFromAWSSecrets (_w : World) : Option CloudflareCreds :=
  none

/-- `CloudflareProvider.loadCredentials`
(cloudflare-provider.js:147-165): sources tried in order environment →
file → AWS Secrets Manager; first non-null wins; throws when none
yields. -/
def cloudflareLoadCredentials (w : World) : Except String CloudflareCreds :=
  match cloudflareLoadFromEnvironment w with
  | some c => .ok c
  | none =>
    match cloudflareLoadFromFile w with
    | some c => .ok c
    | none =>
      match cloudflareLoadFromAWSSecrets w with
      | some c => .ok c
      | none => .error "No valid Cloudflare credentials found"

/-- The credentials cached on the Cloudflare provider instance. -/
def cloudflareCredsOpt (w : World) : Option CloudflareCreds :=
  (cloudflareLoadCredentials w).toOption

/-- The `{healthy, error?}` object every provider's `healthCheck`
returns. -/
structure HealthResult where
  healthy : Bool
  error : Option String
deriving DecidableEq

/-- Try-block of `PorkbunProvider.healthCheck`
(dns-management-system.js:377-398): load credentials (throws when no
source yields) then `POST /ping` with a 10s timeout (throws on network
error or timeout). -/
def porkbunHealthCheckBody (w : World) : Except String HealthResult :=
  match porkbunLoadCredentials w with
  | .error e => .error e
  | .ok _ =>
    match w.porkbunPing with
    | none => .error w.porkbunPingErr
    | some resp => .ok { healthy := resp.statusSuccess, error := resp.message }

/-- `PorkbunProvider.healthCheck`: the catch converts any exception into
`{healthy: false, error: "API unreachable: ..."}`. -/
def porkbunHealthCheck (w : World) : HealthResult :=
  match porkbunHealthCheckBody w with
  | .ok r => r
  | .error e => { healthy := false, error := some ("API unreachable: " ++ e) }

/-- `porkbunHealthCheck` as seen by an exception-tracking caller: the
catch clause itself cannot throw, so no `.error` escapes. -/
def porkbunHealthCheckE (w : World) : Except String HealthResult :=
  match porkbunHealthCheckBody w with
  | .ok r => .ok r
  | .error e => .ok { healthy := false, error := some ("API unreachable: " ++ e) }

/-- Try-block of `CloudflareProvider.healthCheck`
(cloudflare-provider.js:18-41): load credentials then
`GET /user/tokens/verify` with a 10s timeout. -/
def cloudflareHealthCheckBody (w : World) : Except String HealthResult :=
  match cloudflareLoadCredentials w with
  | .error e => .error e
  | .ok _ =>
    match w.cloudflareVerify with
    | none => .error w.cloudflareVerifyErr
    | some resp => .ok { healthy := resp.success, error := resp.firstErrorMessage }

/-- `CloudflareProvider.healthCheck`: the catch converts any exception
into `{healthy: false, error: "Cloudflare API unreachable: ..."}`. -/
def cloudflareHealthCheck (w : World) : HealthResult :=
  match cloudflareHealthCheckBody w with
  | .ok r => r
  | .error e => { healthy := false, error := some ("Cloudflare API unreachable: " ++ e) }

/-- `cloudflareHealthCheck` as seen by an exception-tracking caller. -/
def cloudflareHealthCheckE (w : World) : Except String HealthResult :=
  match cloudflareHealthCheckBody w with
  | .ok r => .ok r
  | .error e => .ok { healthy := false, error := some ("Cloudflare API unreachable: " ++ e) }

/-- The spec's credential precedence, defined from the spec's words for
comparison with the implementations: environment variable, then local
config file, then secret-manager lookup; the first source that yields a
credential set wins. -/
def specCredentialPrecedence {α : Type} (env file secrets : Option α) :
    Option α :=
  match env with
  | some c => some c
  | none =>
    match file with
    | some c => some c
    | none => secrets

end DNSManager

/-! ## Claim C4 -/

/-- C4: for both implemented providers, credential loading returns
exactly what the spec's fixed precedence (environment variable → local
config file → secret-manager lookup) returns on every world — the
Porkbun source tries environment → secret manager → file, but the
secret-manager source is a stub that never yields, so the first source
that yields a complete credential set is the same — and when no source
yields credentials, `loadCredentials` throws and the provider's health
check reports it unavailable (`healthy = false`) for the run. -/
theorem c4_credential_precedence (w : DNSManager.World) :
    (DNSManager.porkbunCredsOpt w =
      DNSManager.specCredentialPrecedence
        (DNSManager.porkbunLoadFromEnvironment w)
        (DNSManager.porkbunLoadFromFile w)
        (DNSManager.porkbunLoadFromAWSSecrets w)) ∧
    (DNSManager.cloudflareCredsOpt w =
      DNSManager.specCredentialPrecedence
        (DNSManager.cloudflareLoadFromEnvironment w)
        (DNSManager.cloudflareLoadFromFile w)
        (DNSManager.cloudflareLoadFromAWSSecrets w)) ∧
    (DNSManager.porkbunCredsOpt w = none →
      (DNSManager.porkbunHealthCheck w).healthy = false) ∧
    (DNSManager.cloudflareCredsOpt w = none →
      (DNSManager.cloudflareHealthCheck w).healthy = false) := by
  refine ⟨?_, ?_, ?_, ?_⟩
  · cases henv : w.porkbunEnvCreds <;> cases hfile : w.porkbunFileCreds <;>
      simp [DNSManager.porkbunCredsOpt, DNSManager.porkbunLoadCredentials,
        DNSManager.porkbunLoadFromEnvironment, DNSManager.porkbunLoadFromFile,
        DNSManager.porkbunLoadFromAWSSecrets,
        DNSManager.specCredentialPrecedence, henv, hfile, Except.toOption]
  · cases henv : w.cloudflareEnvToken <;> cases hfile : w.cloudflareFileCreds <;>
      simp [DNSManager.cloudflareCredsOpt, DNSManager.cloudflareLoadCredentials,
        DNSManager.cloudflareLoadFromEnvironment,
        DNSManager.cloudflareLoadFromFile,
        DNSManager.cloudflareLoadFromAWSSecrets,
        DNSManager.specCredentialPrecedence, henv, hfile, Except.toOption]
  · intro hnone
    have hload : DNSManager.porkbunLoadCredentials w =
        .error "No valid Porkbun credentials found" := by
      cases hl : DNSManager.porkbunLoadCredentials w with
      | ok c =>
        rw [DNSManager.porkbunCredsOpt, hl] at hnone
        simp [Except.toOption] at hnone
      | error e =>
        cases henv : w.porkbunEnvCreds <;> cases hfile : w.porkbunFileCreds <;>
          simp [DNSManager.porkbunLoadCredentials,
            DNSManager.porkbunLoadFromEnvironment,
            DNSManager.porkbunLoadFromFile,
            DNSManager.porkbunLoadFromAWSSecrets, henv, hfile] <;>
          simp_all [DNSManager.porkbunLoadCredentials,
            DNSManager.porkbunLoadFromEnvironment,
            DNSManager.porkbunLoadFromFile,
            DNSManager.porkbunLoadFromAWSSecrets, henv, hfile]
    simp [DNSManager.porkbunHealthCheck, DNSManager.porkbunHealthCheckBody, hload]
  · intro hnone
    have hload : DNSManager.cloudflareLoadCredentials w =
        .error "No valid Cloudflare credentials found" := by
      cases hl : DNSManager.cloudflareLoadCredentials w with
      | ok c =>
        rw [DNSManager.cloudflareCredsOpt, hl] at hnone
        simp [Except.toOption] at hnone
      | error e =>
        cases henv : w.cloudflareEnvToken <;> cases hfile : w.cloudflareFileCreds <;>
          simp_all [DNSManager.cloudflareLoadCredentials,
            DNSManager.cloudflareLoadFromEnvironment,
            DNSManager.cloudflareLoadFromFile,
            DNSManager.cloudflareLoadFromAWSSecrets]
    simp [DNSManager.cloudflareHealthCheck, DNSManager.cloudflareHealthCheckBody,
      hload]

/-- A concrete world for the C4 witness: Porkbun credentials present only
in the config file, no Cloudflare credentials anywhere. -/
def c4WitnessWorld : DNSManager.World :=
  { porkbunEnvCreds := none
    porkbunFileCreds := some { apiKey := "pk", secretKey := "sk" }
    porkbunPing := some { statusSuccess := true, message := none }
    porkbunPingErr := "socket hang up"
    porkbunCreate := some { statusSuccess := true, id := some 7, message := none }
    porkbunCreateErr := "socket hang up"
    cloudflareEnvToken := none
    cloudflareFileCreds := none
    cloudflareVerify := none
    cloudflareVerifyErr := "timeout of 10000ms exceeded"
    fsRedirectWriteOk := true
    fsInstructionsWriteOk := true
    dnsPropagates := false
    httpStatusLt400 := false }

/-- Witness for C4: in `c4WitnessWorld` the Porkbun chain resolves to the
file credentials (matching the spec precedence) and the credential-less
Cloudflare provider is reported unavailable. -/
theorem c4_credential_precedence_witness :
    DNSManager.porkbunCredsOpt c4WitnessWorld =
      some { apiKey := "pk", secretKey := "sk" } ∧
    (DNSManager.cloudflareHealthCheck c4WitnessWorld).healthy = false := by
  have h := c4_credential_precedence c4WitnessWorld
  exact ⟨h.1.trans (by decide), h.2.2.2 (by decide)⟩

/-! ## Claim C5 -/

/-- C5: for both implemented providers and every world — including
credential-loading failure, network error and timeout — `healthCheck`
never lets an exception past its own boundary (the exception-tracking
embedding always returns `.ok`), and whenever the try-block raised, the
caught error is converted into a `{healthy: false, error: ...}` result
object rather than propagated. -/
theorem c5_healthcheck_never_throws (w : DNSManager.World) :
    (DNSManager.porkbunHealthCheckE w =
      Except.ok (DNSManager.porkbunHealthCheck w)) ∧
    (DNSManager.cloudflareHealthCheckE w =
      Except.ok (DNSManager.cloudflareHealthCheck w)) ∧
    ((DNSManager.porkbunHealthCheckBody w).isOk = false →
      (DNSManager.porkbunHealthCheck w).healthy = false ∧
      (DNSManager.porkbunHealthCheck w).error.isSome = true) ∧
    ((DNSManager.cloudflareHealthCheckBody w).isOk = false →
      (DNSManager.cloudflareHealthCheck w).healthy = false ∧
      (DNSManager.cloudflareHealthCheck w).error.isSome = true) := by
  refine ⟨?_, ?_, ?_, ?_⟩
  · cases hb : DNSManager.porkbunHealthCheckBody w <;>
      simp [DNSManager.porkbunHealthCheckE, DNSManager.porkbunHealthCheck, hb]
  · cases hb : DNSManager.cloudflareHealthCheckBody w <;>
      simp [DNSManager.cloudflareHealthCheckE, DNSManager.cloudflareHealthCheck, hb]
  · intro hb
    cases hb2 : DNSManager.porkbunHealthCheckBody w with
    | ok r => rw [hb2] at hb; simp [Except.isOk, Except.toBool] at hb
    | error e => simp [DNSManager.porkbunHealthCheck, hb2]
  · intro hb
    cases hb2 : DNSManager.cloudflareHealthCheckBody w with
    | ok r => rw [hb2] at hb; simp [Except.isOk, Except.toBool] at hb
    | error e => simp [DNSManager.cloudflareHealthCheck, hb2]

/-- A concrete world for the C5 witness: no Porkbun credentials at all,
so the try-block of `healthCheck` raises. -/
def c5WitnessWorld : DNSManager.World :=
  { porkbunEnvCreds := none
    porkbunFileCreds := none
    porkbunPing := none
    porkbunPingErr := "timeout of 10000ms exceeded"
    porkbunCreate := none
    porkbunCreateErr := "timeout of 30000ms exceeded"
    cloudflareEnvToken := some "cf-token"
    cloudflareFileCreds := none
    cloudflareVerify := none
    cloudflareVerifyErr := "timeout of 10000ms exceeded"
    fsRedirectWriteOk := false
    fsInstructionsWriteOk := false
    dnsPropagates := false
    httpStatusLt400 := false }

/-- Witness for C5: with no Porkbun credentials the try-block raises and
the caught error is converted into a result object. -/
theorem c5_healthcheck_never_throws_witness :
    (DNSManager.porkbunHealthCheck c5WitnessWorld).healthy = false ∧
    (DNSManager.porkbunHealthCheck c5WitnessWorld).error.isSome = true :=
  (c5_healthcheck_never_throws c5WitnessWorld).2.2.1 (by decide)

namespace DNSManager

/-! ## dns-management-system.js: configureDNS and the backup chain -/

/-- The `{success, recordId?, error?}` object `createRecord` returns. -/
structure RecordResult where
  success : Bool
  recordId : Option Nat
  error : Option String
deriving DecidableEq

/-- `PorkbunProvider.createRecord` (dns-management-system.js:400-427) at
the result level: posts `/dns/create/{domain}` using `this.credentials`
(cached by `healthCheck`; when they are null, reading `.secretKey`
throws a TypeError that the surrounding try converts into a failure
result). -/
def porkbunCreateRecordResult (w : World) : RecordResult :=
  match porkbunCredsOpt w with
  | none =>
    { success := false, recordId := none
      error := some "Porkbun API error: TypeError: Cannot read properties of null" }
  | some _ =>
    match w.porkbunCreate with
    | none =>
      { success := false, recordId := none
        error := some ("Porkbun API error: " ++ w.porkbunCreateErr) }
    | some resp =>
      { success := resp.statusSuccess, recordId := resp.id, error := resp.message }

/-- `DNSManager.verifyHTTPAccess` (dns-management-system.js:140-157):
`success` is `response.status < 400` (only the flag is consumed). -/
def verifyHTTPAccessSuccess (w : World) : Bool :=
  w.httpStatusLt400

/-- `DNSManager.verifyDNSPropagation` (dns-management-system.js:107-135),
with the polling loop abstracted by its limit behavior: `dnsPropagates`
says whether the CNAME becomes visible before the 5-minute verification
timeout; if so the result is the HTTP check's success, else a timeout
failure. -/
def verifyDNSPropagationSuccess (w : World) : Bool :=
  if w.dnsPropagates then verifyHTTPAccessSuccess w else false

/-- `DNSManager.attemptProvider` (dns-management-system.js:74-102) for
the Porkbun provider: health check (an unhealthy result raises, and the
method's own catch returns false), record creation, propagation
verification. -/
def attemptPorkbun (w : World) : Bool :=
  if (porkbunHealthCheck w).healthy then
    if (porkbunCreateRecordResult w).success then verifyDNSPropagationSuccess w
    else false
  else false

/-- The `CloudflareProvider` and `NetlifyDNSProvider` classes defined in
dns-management-system.js itself (the ones `DNSManager` instantiates) are
stubs whose `healthCheck` always reports unhealthy ("Not implemented
yet"). -/
def stubHealthCheck : HealthResult :=
  { healthy := false, error := some "Not implemented yet" }

/-- The stub providers' `createRecord` (never reached from
`attemptProvider` because their health check already fails). -/
def stubCreateRecord : RecordResult :=
  { success := false, recordId := none, error := some "Not implemented yet" }

/-- `attemptProvider` for either stub provider. -/
def attemptStubProvider (w : World) : Bool :=
  if stubHealthCheck.healthy then
    if stubCreateRecord.success then verifyDNSPropagationSuccess w else false
  else false

/-- The result object `configureDNS` hands back: on a provider success
`{success, provider}`, otherwise one of the backup-strategy objects. -/
structure ConfigResult where
  success : Bool
  provider : Option String := none
  method : Option String := none
  url : Option String := none
  note : Option String := none
  subdomain : Option String := none
  temporaryUrl : Option String := none
  file : Option String := none
  error : Option String := none
deriving DecidableEq

/-- `DNSManager.useNetlifyRedirect` (dns-management-system.js:189-213):
writes `netlify/_redirects`; its own catch converts a write failure into
a failure result. -/
def useNetlifyRedirect (w : World) : ConfigResult :=
  if w.fsRedirectWriteOk then
    { success := true, method := some "netlify_redirect"
      url := some "https://candlefish.ai/fogg"
      note := some "Users can access via main domain redirect" }
  else { success := false, error := some "filesystem write failed" }

/-- `DNSManager.createAlternativeSubdomain`
(dns-management-system.js:218-251): tries the primary provider's
`createRecord` for `fogg-cal`, `fogg-dashboard`, `calendar-fogg`; the
deterministic world gives every attempt the same outcome, so the first
alternative decides. -/
def createAlternativeSubdomain (w : World) : ConfigResult :=
  if (porkbunCreateRecordResult w).success then
    { success := true, method := some "alternative_subdomain"
      url := some "https://fogg-cal.candlefish.ai"
      subdomain := some "fogg-cal" }
  else { success := false, error := some "No alternative subdomains available" }

/-- `DNSManager.setupProxyServer` (dns-management-system.js:256-280):
builds a config object and logs; nothing in its try block can fail, so
it always succeeds (and its result carries no URL). -/
def setupProxyServer : ConfigResult :=
  { success := true, method := some "proxy_server"
    note := some "Proxy server configuration ready for deployment" }

/-- `DNSManager.notifyUserWithInstructions`
(dns-management-system.js:285-334): writes the emergency-instructions
file with no internal catch, so a write failure propagates to the
strategy loop's catch. -/
def notifyUserWithInstructionsE (w : World) : Except String ConfigResult :=
  if w.fsInstructionsWriteOk then
    Except.ok
      { success := true, method := some "user_instructions"
        file := some "EMERGENCY_DNS_INSTRUCTIONS.md"
        temporaryUrl := some "https://fogg-calendar.netlify.app" }
  else Except.error "filesystem write failed"

/-- `DNSManager.implementBackupStrategy`
(dns-management-system.js:162-184): try each strategy in order, catching
strategy exceptions and taking the first success; if none succeeds,
report overall failure. -/
def implementBackupStrategy (w : World) : ConfigResult :=
  let r1 := useNetlifyRedirect w
  if r1.success then r1
  else
    let r2 := createAlternativeSubdomain w
    if r2.success then r2
    else
      let r3 := setupProxyServer
      if r3.success then r3
      else
        match notifyUserWithInstructionsE w with
        | Except.ok r4 =>
          if r4.success then r4
          else { success := false, error := some "All backup strategies failed" }
        | Except.error _ =>
          { success := false, error := some "All backup strategies failed" }

/-- `DNSManager.configureDNS` (dns-management-system.js:43-69): attempt
Porkbun, then the two stub providers, then the backup chain.
`Except`-valued so a theorem can state that no exception reaches the
caller (`attemptProvider` catches internally and the backup loop catches
each strategy). -/
def configureDNS (w : World) : Except String ConfigResult :=
  if attemptPorkbun w then Except.ok { success := true, provider := some "Porkbun" }
  else if attemptStubProvider w then
    Except.ok { success := true, provider := some "Cloudflare" }
  else if attemptStubProvider w then
    Except.ok { success := true, provider := some "Netlify DNS" }
  else Except.ok (implementBackupStrategy w)

end DNSManager

/-! ## Claim C2 -/

/-- A concrete world for the C2 counterexample: no credentials anywhere
(every provider health check reports unavailable) and a working local
filesystem. -/
def c2CounterWorld : DNSManager.World :=
  { porkbunEnvCreds := none
    porkbunFileCreds := none
    porkbunPing := none
    porkbunPingErr := "timeout of 10000ms exceeded"
    porkbunCreate := none
    porkbunCreateErr := "timeout of 30000ms exceeded"
    cloudflareEnvToken := none
    cloudflareFileCreds := none
    cloudflareVerify := none
    cloudflareVerifyErr := "timeout of 10000ms exceeded"
    fsRedirectWriteOk := true
    fsInstructionsWriteOk := true
    dnsPropagates := false
    httpStatusLt400 := false }

/-- C2 counterexample: with every provider's health check unavailable
(bad credentials) and a working filesystem, `configureDNS` does not
return `{success: false}` — the first backup strategy (the Netlify
redirect file) succeeds, so it returns `{success: true}` together with
the direct-access URL. -/
theorem c2_counterexample :
    (DNSManager.porkbunHealthCheck c2CounterWorld).healthy = false ∧
    DNSManager.stubHealthCheck.healthy = false ∧
    DNSManager.configureDNS c2CounterWorld =
      Except.ok
        { success := true, method := some "netlify_redirect"
          url := some "https://candlefish.ai/fogg"
          note := some "Users can access via main domain redirect" } :=
  ⟨rfl, rfl, rfl⟩

/-- C2 amended: if every configured provider's health check reports
unavailable, `configureDNS` does not throw and returns a backup-strategy
result with `success = true` (the proxy-server strategy always
succeeds), and whenever the Netlify-redirect file write succeeds — the
normal case — that result carries the direct-access URL
`https://candlefish.ai/fogg`.  (`{success: false}` is returned only if
every backup strategy fails, and then without a URL.) -/
theorem c2_all_providers_down_backup (w : DNSManager.World)
    (hp : (DNSManager.porkbunHealthCheck w).healthy = false) :
    ∃ r, DNSManager.configureDNS w = Except.ok r ∧ r.success = true ∧
      (w.fsRedirectWriteOk = true → r.url = some "https://candlefish.ai/fogg") := by
  have hA : DNSManager.attemptPorkbun w = false := by
    unfold DNSManager.attemptPorkbun
    rw [hp]
    rfl
  have hS : DNSManager.attemptStubProvider w = false := rfl
  have hcfg : DNSManager.configureDNS w =
      Except.ok (DNSManager.implementBackupStrategy w) := by
    unfold DNSManager.configureDNS
    rw [hA, hS]
    rfl
  by_cases hfs : w.fsRedirectWriteOk
  · refine ⟨DNSManager.useNetlifyRedirect w, ?_, ?_, ?_⟩
    · rw [hcfg]
      unfold DNSManager.implementBackupStrategy
      simp [DNSManager.useNetlifyRedirect, hfs]
    · simp [DNSManager.useNetlifyRedirect, hfs]
    · intro _
      simp [DNSManager.useNetlifyRedirect, hfs]
  · by_cases hcr : (DNSManager.porkbunCreateRecordResult w).success
    · refine ⟨DNSManager.createAlternativeSubdomain w, ?_, ?_, ?_⟩
      · rw [hcfg]
        unfold DNSManager.implementBackupStrategy
        simp [DNSManager.useNetlifyRedirect, hfs,
          DNSManager.createAlternativeSubdomain, hcr]
      · simp [DNSManager.createAlternativeSubdomain, hcr]
      · intro hcontra
        exact absurd hcontra hfs
    · refine ⟨DNSManager.setupProxyServer, ?_, rfl, ?_⟩
      · rw [hcfg]
        unfold DNSManager.implementBackupStrategy
        simp only [DNSManager.useNetlifyRedirect, hfs,
          DNSManager.createAlternativeSubdomain]
        simp [hcr, DNSManager.setupProxyServer]
      · intro hcontra
        exact absurd hcontra hfs

/-- A concrete world for the C2 witness (distinct from the
counterexample's): credentials load from the environment but the ping
reports a non-SUCCESS status, so the provider is unhealthy; the redirect
write succeeds. -/
def c2WitnessWorld : DNSManager.World :=
  { porkbunEnvCreds := some { apiKey := "pk", secretKey := "sk" }
    porkbunFileCreds := none
    porkbunPing := some { statusSuccess := false, message := some "Invalid API key" }
    porkbunPingErr := "socket hang up"
    porkbunCreate := some { statusSuccess := false, id := none, message := some "Invalid API key" }
    porkbunCreateErr := "socket hang up"
    cloudflareEnvToken := none
    cloudflareFileCreds := none
    cloudflareVerify := none
    cloudflareVerifyErr := "timeout of 10000ms exceeded"
    fsRedirectWriteOk := true
    fsInstructionsWriteOk := true
    dnsPropagates := false
    httpStatusLt400 := false }

/-- Witness for C2's amended theorem at `c2WitnessWorld`. -/
theorem c2_all_providers_down_backup_witness :
    ∃ r, DNSManager.configureDNS c2WitnessWorld = Except.ok r ∧
      r.success = true ∧
      (c2WitnessWorld.fsRedirectWriteOk = true →
        r.url = some "https://candlefish.ai/fogg") :=
  c2_all_providers_down_backup c2WitnessWorld (by decide)

namespace DNSVerifier

/-! ## dns-verifier.js: verify loop and reporting -/

/-- The verifier configuration (constructor of `DNSVerifier`): `timeout`
and `checkInterval` in milliseconds.  The constructor's
`config.timeout || 300000` / `config.checkInterval || 10000` defaulting
means both are positive in any constructed instance. -/
structure VerifyConfig where
  domain : String
  subdomain : String
  target : String
  timeout : Nat
  checkInterval : Nat
deriving DecidableEq

/-- One entry of `generateRecommendations` (`type` is a Lean keyword,
hence `rtype`). -/
structure Recommendation where
  rtype : String
  priority : String
  message : String
  action : String
deriving DecidableEq

/-- `DNSVerifier.generateRecommendations` (dns-verifier.js:461-510).
`successCount < totalCount * 0.5` is exact float arithmetic on small
integers, modelled in `Rat`. -/
def generateRecommendations (c : Check) (status : String) : List Recommendation :=
  (if c.localDNS.success = false then
    [{ rtype := "dns_resolution", priority := "high"
       message := "DNS resolution failing locally - check DNS record configuration"
       action := "Verify CNAME record points to correct target" }]
  else []) ++
  (if (c.servers.successCount : ℚ) < (c.servers.totalCount : ℚ) * (1/2) then
    [{ rtype := "dns_propagation", priority := "medium"
       message := "Poor DNS propagation across servers"
       action := "Wait for full DNS propagation (up to 48 hours)" }]
  else []) ++
  (if c.http.success = false ∧ c.localDNS.success = true then
    [{ rtype := "http_configuration", priority := "high"
       message := "DNS working but HTTP access failing"
       action := "Check Netlify site configuration and SSL settings" }]
  else []) ++
  (if c.ssl.success = false then
    [{ rtype := "ssl_certificate", priority := "medium"
       message := "SSL certificate issues detected"
       action := "Force SSL certificate provisioning in Netlify dashboard" }]
  else []) ++
  (if status = "timeout" then
    [{ rtype := "timeout", priority := "high"
       message := "DNS verification timed out"
       action := "Consider manual DNS configuration or alternative providers" }]
  else [])

/-- `DNSVerifier.generateNextSteps` (dns-verifier.js:515-533); the check
argument is accepted but never read by the source either. -/
def generateNextSteps (_c : Check) (status : String) : List String :=
  if status = "success" then
    ["✅ DNS is fully operational",
     "🔍 Monitor with: node dns-monitor.js",
     "📊 Set up continuous monitoring"]
  else if status = "timeout" then
    ["⚠️  Consider manual DNS configuration",
     "🔄 Try alternative DNS provider (Cloudflare)",
     "📞 Contact domain registrar support"]
  else
    ["⏳ Continue waiting for DNS propagation",
     "🔍 Run verification again in 30 minutes",
     "📋 Check DNS record configuration"]

/-- The `summary` part of the final report (`duration`, `timestamp` and
`totalChecks` are wall-clock bookkeeping, omitted). -/
structure ReportSummary where
  domain : String
  target : String
  status : String
deriving DecidableEq

/-- The final report object of `generateFinalReport`. -/
structure Report where
  summary : ReportSummary
  finalState : Option Check
  recommendations : List Recommendation
  nextSteps : List String
deriving DecidableEq

/-- `DNSVerifier.generateFinalReport` (dns-verifier.js:431-456).  With a
null `finalCheck` — which reaches it from the timeout path when no
monitoring cycle ran before the deadline — `generateRecommendations`
dereferences `check.local` and throws a TypeError, which rejects the
promise `verify` returned; otherwise the report object is assembled (the
report-file write and console display are side effects outside the
model). -/
def generateFinalReport (cfg : VerifyConfig) (finalCheck : Option Check)
    (status : String) : Except String Report :=
  match finalCheck with
  | none => Except.error "TypeError: Cannot read properties of null (reading local)"
  | some c =>
    Except.ok
      { summary :=
          { domain := cfg.subdomain ++ "." ++ cfg.domain
            target := cfg.target
            status := status }
        finalState := some c
        recommendations := generateRecommendations c status
        nextSteps := generateNextSteps c status }

/-- Number of interval ticks that get to run a check before the deadline:
tick k fires at elapsed time k·checkInterval and first tests
`elapsed >= this.config.timeout`, so exactly the ticks with
k·checkInterval < timeout perform a check and the next tick resolves
with the timeout report. -/
def ticksBeforeDeadline (cfg : VerifyConfig) : Nat :=
  (cfg.timeout - 1) / cfg.checkInterval

/-- The monitoring loop of `verify` (dns-verifier.js:91-124): at each
tick, if the deadline has passed, resolve with the timeout report built
from the last observed check (null when no cycle ran); otherwise run a
comprehensive check — `checkAt k` is the outcome of the k-th
comprehensive check; `performComprehensiveCheck` itself never throws,
every inner probe catching its own errors — resolve with a success
report if it passes, and continue otherwise.  `fuel` counts the
remaining ticks before the deadline. -/
def verifyLoop (cfg : VerifyConfig) (checkAt : Nat → Check) :
    Nat → Nat → Option Check → Except String Report
  | 0, _, lastCheck => generateFinalReport cfg lastCheck "timeout"
  | fuel + 1, tick, _ =>
    let c := checkAt tick
    if (calculateOverallSuccess c).success then
      generateFinalReport cfg (some c) "success"
    else
      verifyLoop cfg checkAt fuel (tick + 1) (some c)

/-- `DNSVerifier.verify` (dns-verifier.js:72-125): an initial
comprehensive check — if it already passes, the final report is
generated without a status argument, defaulting to "unknown" — then the
monitoring loop until success or the timeout deadline. -/
def verify (cfg : VerifyConfig) (checkAt : Nat → Check) :
    Except String Report :=
  let initialCheck := checkAt 0
  if (calculateOverallSuccess initialCheck).success then
    generateFinalReport cfg (some initialCheck) "unknown"
  else
    verifyLoop cfg checkAt (ticksBeforeDeadline cfg) 1 none

end DNSVerifier

/-! ## Claim C6 -/

/-- C6 counterexample: run `verify` with `timeout = 1000` and
`checkInterval = 2000` (reachable, e.g., a CLI timeout below the default
10s interval) on checks that never succeed: the deadline passes before
the first monitoring cycle, `lastCheck` is still null, and building the
timeout report throws a TypeError that rejects the promise — the caller
gets an exception instead of a report with `summary.status = "timeout"`
and the manual next steps. -/
theorem c6_counterexample :
    DNSVerifier.verify
        { domain := "candlefish.ai", subdomain := "fogg"
          target := "fogg-calendar.netlify.app"
          timeout := 1000, checkInterval := 2000 }
        (fun _ =>
          { localDNS := { success := false }
            servers := { checks := [false, false, false, false, false, false, false, false] }
            online := { checks := [false, false] }
            http := { success := false }
            ssl := { success := false } }) =
      Except.error "TypeError: Cannot read properties of null (reading local)" := by
  have hs : (DNSVerifier.calculateOverallSuccess
      { localDNS := { success := false }
        servers := { checks := [false, false, false, false, false, false, false, false] }
        online := { checks := [false, false] }
        http := { success := false }
        ssl := { success := false } }).success = false := by
    norm_num [DNSVerifier.calculateOverallSuccess,
      DNSVerifier.ServersCheck.successCount, DNSVerifier.ServersCheck.totalCount,
      DNSVerifier.OnlineCheck.successCount]
  rw [DNSVerifier.verify]
  simp only [hs, Bool.false_eq_true, if_false]
  rfl

/-- C6 amended: provided at least one monitoring cycle fires before the
deadline (`checkInterval < timeout`, true for the defaults 10s/5min), a
run in which no check cycle succeeds terminates without raising an
exception and returns a report whose `summary.status` is "timeout" and
whose `nextSteps` is the fixed manual next-step list for the timeout
status.  (When the deadline elapses before the first cycle, `verify`
instead rejects with a TypeError on the null last check — see the
counterexample.) -/
theorem c6_timeout_report (cfg : DNSVerifier.VerifyConfig)
    (checkAt : Nat → DNSVerifier.Check)
    (hpos : 0 < cfg.checkInterval)
    (hlt : cfg.checkInterval < cfg.timeout)
    (hfail : ∀ k, (DNSVerifier.calculateOverallSuccess (checkAt k)).success = false) :
    ∃ r, DNSVerifier.verify cfg checkAt = Except.ok r ∧
      r.summary.status = "timeout" ∧
      r.nextSteps =
        ["⚠️  Consider manual DNS configuration",
         "🔄 Try alternative DNS provider (Cloudflare)",
         "📞 Contact domain registrar support"] := by
  have hloop : ∀ fuel tick c0, ∃ c,
      DNSVerifier.verifyLoop cfg checkAt fuel tick (some c0) =
        DNSVerifier.generateFinalReport cfg (some c) "timeout" := by
    intro fuel
    induction fuel with
    | zero => intro tick c0; exact ⟨c0, rfl⟩
    | succ n ih =>
      intro tick c0
      obtain ⟨c, hc⟩ := ih (tick + 1) (checkAt tick)
      refine ⟨c, ?_⟩
      rw [DNSVerifier.verifyLoop]
      simp only [hfail tick, Bool.false_eq_true, if_false]
      exact hc
  have hfuel : 1 ≤ DNSVerifier.ticksBeforeDeadline cfg := by
    rw [DNSVerifier.ticksBeforeDeadline, Nat.one_le_div_iff hpos]
    omega
  obtain ⟨f, hf⟩ : ∃ f, DNSVerifier.ticksBeforeDeadline cfg = f + 1 := by
    cases hT : DNSVerifier.ticksBeforeDeadline cfg with
    | zero => rw [hT] at hfuel; omega
    | succ n => exact ⟨n, rfl⟩
  obtain ⟨c, hc⟩ := hloop f 2 (checkAt 1)
  refine ⟨{ summary :=
              { domain := cfg.subdomain ++ "." ++ cfg.domain
                target := cfg.target
                status := "timeout" }
            finalState := some c
            recommendations := DNSVerifier.generateRecommendations c "timeout"
            nextSteps := DNSVerifier.generateNextSteps c "timeout" }, ?_, rfl, rfl⟩
  rw [DNSVerifier.verify]
  simp only [hfail 0, Bool.false_eq_true, if_false, hf]
  rw [DNSVerifier.verifyLoop]
  simp only [hfail 1, Bool.false_eq_true, if_false]
  rw [hc]
  rfl

/-- Witness for C6's amended theorem: `timeout = 5000`,
`checkInterval = 2000`, checks never succeed. -/
theorem c6_timeout_report_witness :
    ∃ r, DNSVerifier.verify
        { domain := "candlefish.ai", subdomain := "fogg"
          target := "fogg-calendar.netlify.app"
          timeout := 5000, checkInterval := 2000 }
        (fun _ =>
          { localDNS := { success := false }
            servers := { checks := [false, false, false, false, false, false, false, false] }
            online := { checks := [false, false] }
            http := { success := false }
            ssl := { success := false } }) = Except.ok r ∧
      r.summary.status = "timeout" ∧
      r.nextSteps =
        ["⚠️  Consider manual DNS configuration",
         "🔄 Try alternative DNS provider (Cloudflare)",
         "📞 Contact domain registrar support"] :=
  c6_timeout_report _ _ (by decide) (by decide)
    (fun _ => by
      norm_num [DNSVerifier.calculateOverallSuccess,
        DNSVerifier.ServersCheck.successCount, DNSVerifier.ServersCheck.totalCount,
        DNSVerifier.OnlineCheck.successCount])

namespace PerformanceOptimizer

/-! ## performance-optimizer.js: CDN measurement and optimal endpoint -/

/-- One configured CDN endpoint. -/
structure Endpoint where
  name : String
  url : String
  priority : Nat
deriving DecidableEq

/-- `this.cdnEndpoints` (performance-optimizer.js:46-50). -/
def cdnEndpoints : List Endpoint :=
  [{ name := "Netlify", url := "https://fogg-calendar.netlify.app", priority := 1 },
   { name := "Cloudflare", url := "https://fogg.candlefish.ai", priority := 2 },
   { name := "Direct", url := "https://candlefish.ai/fogg", priority := 3 }]

/-- One entry of the `measurements` array built by
`measureCDNPerformance`: on a successful probe `responseTime ≥ 0` is the
measured time and `available` is `status < 500`; on a thrown probe
`responseTime = -1` and `available = false`. -/
structure Measurement where
  name : String
  url : String
  priority : Nat
  responseTime : Int
  status : Option Nat
  available : Bool
  error : Option String
deriving DecidableEq

/-- The outside world for the optimizer: per-endpoint outcome of the
`axios.head` probe — `none` when the request throws (timeout, network
error), otherwise the HTTP status and the measured response time in
milliseconds (`performance.now()` differences are nonnegative reals;
milliseconds as `Nat` keeps every comparison the source makes exact) —
plus `this.config.primaryUrl`. -/
structure PerfWorld where
  outcome1 : Option (Nat × Nat)
  outcome2 : Option (Nat × Nat)
  outcome3 : Option (Nat × Nat)
  primaryUrl : String
  errMsg : String

/-- The loop body of `measureCDNPerformance` for one endpoint
(performance-optimizer.js:338-367). -/
def measureOne (e : Endpoint) (o : Option (Nat × Nat)) (errMsg : String) :
    Measurement :=
  match o with
  | some (st, rt) =>
    { name := e.name, url := e.url, priority := e.priority
      responseTime := (rt : Int), status := some st
      available := decide (st < 500), error := none }
  | none =>
    { name := e.name, url := e.url, priority := e.priority
      responseTime := -1, status := none, available := false
      error := some errMsg }

/-- The sort comparator of `measureCDNPerformance`
(performance-optimizer.js:370-376): available first, errored (`-1`)
response times last, then ascending response time. -/
def compareMeasurements (a b : Measurement) : Int :=
  if a.available && !b.available then -1
  else if !a.available && b.available then 1
  else if a.responseTime = -1 then 1
  else if b.responseTime = -1 then -1
  else a.responseTime - b.responseTime

/-- `a` sorts no later than `b`: the comparator is nonpositive. -/
def cmpLe (a b : Measurement) : Bool :=
  decide (compareMeasurements a b ≤ 0)

/-- Insertion of one element at its comparator position. -/
def insertSorted (x : Measurement) : List Measurement → List Measurement
  | [] => [x]
  | y :: ys => if cmpLe x y then x :: y :: ys else y :: insertSorted x ys

/-- `measurements.sort(comparator)`: `Array.prototype.sort` is a stable
comparison sort (TimSort in V8), modelled by a stable insertion sort.
The two agree whenever the comparator is consistent on the list; on
lists produced by `measureCDNPerformance` the only inconsistent pairs
are two errored endpoints (both `responseTime = -1`, the comparator
answers "after" both ways), and insertion never lets such a pair
separate or reorder the available endpoints. -/
def sortMeasurements (ms : List Measurement) : List Measurement :=
  ms.foldr insertSorted []

/-- `PerformanceOptimizer.measureCDNPerformance`
(performance-optimizer.js:335-379): probe the three configured CDN
endpoints, collect one measurement each, and return them sorted
fastest-available-first. -/
def measureCDNPerformance (w : PerfWorld) : List Measurement :=
  sortMeasurements
    (List.zipWith (fun e o => measureOne e o w.errMsg) cdnEndpoints
      [w.outcome1, w.outcome2, w.outcome3])

/-- Result of `getOptimalEndpoint`: one of the measurements, or the
fallback literal `{name: 'Primary', url: this.config.primaryUrl,
fallback: true}`. -/
inductive OptimalResult where
  | endpoint (m : Measurement)
  | primaryFallback (url : String)
deriving DecidableEq

/-- `PerformanceOptimizer.getOptimalEndpoint`
(performance-optimizer.js:470-485): measure, keep the available
measurements, return the first (fastest) if any, else the primary
fallback. -/
def getOptimalEndpoint (w : PerfWorld) : OptimalResult :=
  let measurements := measureCDNPerformance w
  match measurements.filter (fun m => m.available) with
  | m :: _ => OptimalResult.endpoint m
  | [] => OptimalResult.primaryFallback w.primaryUrl

/-! ### Sort lemmas -/

/-- Membership through one insertion. -/
theorem mem_insertSorted {x m : Measurement} {l : List Measurement} :
    m ∈ insertSorted x l ↔ m = x ∨ m ∈ l := by
  induction l with
  | nil => simp [insertSorted]
  | cons y ys ih =>
    rw [insertSorted]
    split
    · simp [List.mem_cons]
    · simp only [List.mem_cons, ih]
      tauto

/-- An available measurement sorts before an unavailable one. -/
theorem cmpLe_avail_unavail {x y : Measurement} (hx : x.available = true)
    (hy : y.available = false) : cmpLe x y = true := by
  simp [cmpLe, compareMeasurements, hx, hy]

/-- An unavailable measurement does not sort before an available one. -/
theorem cmpLe_unavail_avail {x y : Measurement} (hx : x.available = false)
    (hy : y.available = true) : cmpLe x y = false := by
  simp [cmpLe, compareMeasurements, hx, hy]

/-- Between two available measurements with genuine response times, the
comparator orders by response time. -/
theorem cmpLe_avail_avail {x y : Measurement} (hx : x.available = true)
    (hy : y.available = true) (hx1 : x.responseTime ≠ -1)
    (hy1 : y.responseTime ≠ -1) :
    cmpLe x y = decide (x.responseTime ≤ y.responseTime) := by
  simp only [cmpLe, compareMeasurements, hx, hy, Bool.not_true, Bool.and_false,
    Bool.false_and, Bool.and_self]
  rw [if_neg (by simp), if_neg (by simp), if_neg hx1, if_neg hy1]
  exact decide_eq_decide.mpr (by omega)

/-- Inserting an available measurement into an availables-then-junk list
keeps the junk suffix intact and keeps the available prefix sorted. -/
theorem insertSorted_avail_split (x : Measurement) (hx : x.available = true)
    (hx1 : x.responseTime ≠ -1) :
    ∀ (av jk : List Measurement),
      (∀ m ∈ av, m.available = true) →
      (∀ m ∈ av, m.responseTime ≠ -1) →
      (∀ m ∈ jk, m.available = false) →
      av.Pairwise (fun a b => a.responseTime ≤ b.responseTime) →
      ∃ av2, insertSorted x (av ++ jk) = av2 ++ jk ∧
        (∀ m ∈ av2, m.available = true) ∧
        (∀ m ∈ av2, m.responseTime ≠ -1) ∧
        (∀ m ∈ av2, m = x ∨ m ∈ av) ∧
        av2.Pairwise (fun a b => a.responseTime ≤ b.responseTime) := by
  intro av
  induction av with
  | nil =>
    intro jk _ _ hjk _
    refine ⟨[x], ?_, by simp [hx], by simp [hx1], by simp, by simp⟩
    cases jk with
    | nil => simp [insertSorted]
    | cons y ys =>
      have hc : cmpLe x y = true := cmpLe_avail_unavail hx (hjk y (by simp))
      simp [insertSorted, hc]
  | cons a av0 ih =>
    intro jk hav hrt hjk hpw
    have ha : a.available = true := hav a (by simp)
    have ha1 : a.responseTime ≠ -1 := hrt a (by simp)
    rw [List.cons_append, insertSorted, cmpLe_avail_avail hx ha hx1 ha1]
    by_cases hle : x.responseTime ≤ a.responseTime
    · refine ⟨x :: a :: av0, by simp [hle], ?_, ?_, ?_, ?_⟩
      · intro m hm
        rcases List.mem_cons.mp hm with rfl | hm
        · exact hx
        · exact hav m hm
      · intro m hm
        rcases List.mem_cons.mp hm with rfl | hm
        · exact hx1
        · exact hrt m hm
      · intro m hm
        rcases List.mem_cons.mp hm with rfl | hm
        · exact Or.inl rfl
        · exact Or.inr hm
      · refine List.Pairwise.cons ?_ hpw
        intro m hm
        rcases List.mem_cons.mp hm with rfl | hm
        · exact hle
        · exact le_trans hle ((List.pairwise_cons.mp hpw).1 m hm)
    · obtain ⟨av2, he, g1, g2, g3, g4⟩ :=
        ih jk (fun m hm => hav m (List.mem_cons_of_mem a hm))
          (fun m hm => hrt m (List.mem_cons_of_mem a hm)) hjk
          (List.pairwise_cons.mp hpw).2
      refine ⟨a :: av2, ?_, ?_, ?_, ?_, ?_⟩
      · rw [if_neg (by simp [hle])]
        rw [he, List.cons_append]
      · intro m hm
        rcases List.mem_cons.mp hm with rfl | hm
        · exact ha
        · exact g1 m hm
      · intro m hm
        rcases List.mem_cons.mp hm with rfl | hm
        · exact ha1
        · exact g2 m hm
      · intro m hm
        rcases List.mem_cons.mp hm with rfl | hm
        · exact Or.inr (by simp)
        · rcases g3 m hm with h | h
          · exact Or.inl h
          · exact Or.inr (List.mem_cons_of_mem a h)
      · refine List.Pairwise.cons ?_ g4
        intro m hm
        rcases g3 m hm with rfl | h
        · omega
        · exact (List.pairwise_cons.mp hpw).1 m h

/-- Inserting an unavailable measurement into an availables-then-junk
list leaves the available prefix untouched. -/
theorem insertSorted_unavail_split (x : Measurement) (hx : x.available = false) :
    ∀ (av jk : List Measurement),
      (∀ m ∈ av, m.available = true) →
      ∃ jk2, insertSorted x (av ++ jk) = av ++ jk2 ∧
        (∀ m ∈ jk2, m = x ∨ m ∈ jk) := by
  intro av
  induction av with
  | nil =>
    intro jk _
    exact ⟨insertSorted x jk, rfl, fun m hm => mem_insertSorted.mp hm⟩
  | cons a av0 ih =>
    intro jk hav
    have ha : a.available = true := hav a (by simp)
    obtain ⟨jk2, he, hm⟩ := ih jk (fun m hm => hav m (List.mem_cons_of_mem a hm))
    refine ⟨jk2, ?_, hm⟩
    rw [List.cons_append, insertSorted, cmpLe_unavail_avail hx ha]
    simp only [Bool.false_eq_true, if_false]
    rw [he, List.cons_append]

/-- The sorted measurement list splits into the available measurements —
sorted by response time — followed by the unavailable ones, and every
element comes from the input. -/
theorem sortMeasurements_split (ms : List Measurement)
    (hok : ∀ m ∈ ms, m.available = true → m.responseTime ≠ -1) :
    ∃ av jk, sortMeasurements ms = av ++ jk ∧
      (∀ m ∈ av, m.available = true) ∧
      (∀ m ∈ av, m.responseTime ≠ -1) ∧
      (∀ m ∈ jk, m.available = false) ∧
      av.Pairwise (fun a b => a.responseTime ≤ b.responseTime) ∧
      (∀ m, m ∈ av ++ jk → m ∈ ms) := by
  induction ms with
  | nil => exact ⟨[], [], rfl, by simp, by simp, by simp, by simp, by simp⟩
  | cons x t ih =>
    obtain ⟨av, jk, he, h1, h2, h3, h4, h5⟩ :=
      ih (fun m hm ha => hok m (List.mem_cons_of_mem x hm) ha)
    have hstep : sortMeasurements (x :: t) = insertSorted x (sortMeasurements t) := rfl
    by_cases hxa : x.available = true
    · have hx1 : x.responseTime ≠ -1 := hok x (by simp) hxa
      obtain ⟨av2, he2, g1, g2, g3, g4⟩ :=
        insertSorted_avail_split x hxa hx1 av jk h1 h2 h3 h4
      refine ⟨av2, jk, by rw [hstep, he, he2], g1, g2, h3, g4, ?_⟩
      intro m hm
      rcases List.mem_append.mp hm with h | h
      · rcases g3 m h with rfl | h
        · simp
        · exact List.mem_cons_of_mem x (h5 m (List.mem_append.mpr (Or.inl h)))
      · exact List.mem_cons_of_mem x (h5 m (List.mem_append.mpr (Or.inr h)))
    · have hxa2 : x.available = false := by
        revert hxa; cases x.available <;> simp
      obtain ⟨jk2, he2, hm2⟩ := insertSorted_unavail_split x hxa2 av jk h1
      refine ⟨av, jk2, by rw [hstep, he, he2], h1, h2, ?_, h4, ?_⟩
      · intro m hm
        rcases hm2 m hm with rfl | h
        · exact hxa2
        · exact h3 m h
      · intro m hm
        rcases List.mem_append.mp hm with h | h
        · exact List.mem_cons_of_mem x (h5 m (List.mem_append.mpr (Or.inl h)))
        · rcases hm2 m h with rfl | h
          · simp
          · exact List.mem_cons_of_mem x (h5 m (List.mem_append.mpr (Or.inr h)))

/-- An available measurement produced by the probe loop has a genuine
(nonnegative) response time. -/
theorem measureOne_rt_ok (e : Endpoint) (o : Option (Nat × Nat)) (msg : String) :
    (measureOne e o msg).available = true →
    (measureOne e o msg).responseTime ≠ -1 := by
  cases o with
  | none => intro h; simp [measureOne] at h
  | some p =>
    intro _
    simp only [measureOne]
    omega

/-- Every measurement of the probe loop satisfies the response-time
invariant. -/
theorem rawMeasurements_rt_ok (w : PerfWorld) :
    ∀ m ∈ List.zipWith (fun e o => measureOne e o w.errMsg) cdnEndpoints
        [w.outcome1, w.outcome2, w.outcome3],
      m.available = true → m.responseTime ≠ -1 := by
  intro m hm
  simp only [cdnEndpoints, List.zipWith, List.mem_cons,
    List.not_mem_nil, or_false] at hm
  rcases hm with rfl | rfl | rfl <;> apply measureOne_rt_ok

end PerformanceOptimizer

/-! ## Claim C9 -/

/-- C9: for every world, `getOptimalEndpoint` returns an endpoint that is
available and whose response time is minimal among all available
endpoints in the measurement list; when no endpoint is available it
returns the primary-fallback object (with `this.config.primaryUrl`)
rather than an unavailable alternate. -/
theorem c9_optimal_endpoint (w : PerformanceOptimizer.PerfWorld) :
    (∃ m, PerformanceOptimizer.getOptimalEndpoint w =
        PerformanceOptimizer.OptimalResult.endpoint m ∧
      m.available = true ∧
      (∀ m2 ∈ PerformanceOptimizer.measureCDNPerformance w,
        m2.available = true → m.responseTime ≤ m2.responseTime)) ∨
    ((∀ m2 ∈ PerformanceOptimizer.measureCDNPerformance w,
        m2.available = false) ∧
      PerformanceOptimizer.getOptimalEndpoint w =
        PerformanceOptimizer.OptimalResult.primaryFallback w.primaryUrl) := by
  obtain ⟨av, jk, he, h1, h2, h3, h4, _⟩ :=
    PerformanceOptimizer.sortMeasurements_split _
      (PerformanceOptimizer.rawMeasurements_rt_ok w)
  have hcdn : PerformanceOptimizer.measureCDNPerformance w = av ++ jk := he
  have hfil : (PerformanceOptimizer.measureCDNPerformance w).filter
      (fun m => m.available) = av := by
    rw [hcdn, List.filter_append]
    have e1 : av.filter (fun m => m.available) = av :=
      List.filter_eq_self.mpr (fun m hm => h1 m hm)
    have e2 : jk.filter (fun m => m.available) = [] := by
      rw [List.filter_eq_nil_iff]
      intro m hm
      rw [h3 m hm]
      simp
    rw [e1, e2, List.append_nil]
  cases hav : av with
  | nil =>
    right
    constructor
    · intro m2 hm2
      rw [hcdn, hav, List.nil_append] at hm2
      exact h3 m2 hm2
    · show (match (PerformanceOptimizer.measureCDNPerformance w).filter
          (fun m => m.available) with
        | m :: _ => PerformanceOptimizer.OptimalResult.endpoint m
        | [] => PerformanceOptimizer.OptimalResult.primaryFallback w.primaryUrl) =
          PerformanceOptimizer.OptimalResult.primaryFallback w.primaryUrl
      rw [hfil, hav]
  | cons m0 av0 =>
    left
    refine ⟨m0, ?_, h1 m0 (by rw [hav]; simp), ?_⟩
    · show (match (PerformanceOptimizer.measureCDNPerformance w).filter
          (fun m => m.available) with
        | m :: _ => PerformanceOptimizer.OptimalResult.endpoint m
        | [] => PerformanceOptimizer.OptimalResult.primaryFallback w.primaryUrl) =
          PerformanceOptimizer.OptimalResult.endpoint m0
      rw [hfil, hav]
    · intro m2 hm2 hm2a
      rw [hcdn] at hm2
      rcases List.mem_append.mp hm2 with h | h
      · rw [hav] at h h4
        rcases List.mem_cons.mp h with rfl | h
        · exact le_refl _
        · exact (List.pairwise_cons.mp h4).1 m2 h
      · rw [h3 m2 h] at hm2a
        cases hm2a

/-- A concrete world for the C9 witness: Netlify healthy at 120ms,
Cloudflare answering 503 (unavailable), the direct endpoint timing
out. -/
def c9WitnessWorld : PerformanceOptimizer.PerfWorld :=
  { outcome1 := some (200, 120)
    outcome2 := some (503, 80)
    outcome3 := none
    primaryUrl := "https://fogg-calendar.netlify.app"
    errMsg := "timeout of 3000ms exceeded" }

/-- Witness for C9 at `c9WitnessWorld`. -/
theorem c9_optimal_endpoint_witness :
    (∃ m, PerformanceOptimizer.getOptimalEndpoint c9WitnessWorld =
        PerformanceOptimizer.OptimalResult.endpoint m ∧
      m.available = true ∧
      (∀ m2 ∈ PerformanceOptimizer.measureCDNPerformance c9WitnessWorld,
        m2.available = true → m.responseTime ≤ m2.responseTime)) ∨
    ((∀ m2 ∈ PerformanceOptimizer.measureCDNPerformance c9WitnessWorld,
        m2.available = false) ∧
      PerformanceOptimizer.getOptimalEndpoint c9WitnessWorld =
        PerformanceOptimizer.OptimalResult.primaryFallback
          c9WitnessWorld.primaryUrl) :=
  c9_optimal_endpoint c9WitnessWorld
